import Mathlib

/-!
# Verification of the qhull-rs safety layer

A shallow embedding of the two source files of the `qhull-rs` crate
(`src/error.rs` and `src/lib.rs`) together with proofs about the embedded
operations.

Conventions of the embedding:
* machine addresses are modelled as `Nat` byte addresses; a Rust
  `*const f64` pointer add of `n` advances `n * 8` bytes;
* code that can panic is modelled with an explicit outcome constructor
  (`Option`, or a dedicated result type with a `fatal` constructor);
* the doubly linked facet/vertex lists of the native engine are modelled as
  Lean lists in forward-traversal order: the iterator obtained from the head
  pointer and repeated `next()` calls yields exactly the elements of that
  list, the sentinel included when present;
* coordinates (`f64` in the source) are idealised as rationals `ℚ` where the
  value matters, and as raw byte addresses where only pointer identity
  matters (as in `vertex_index`);
* definitions marked `Modelled from the spec:` embed parts of the crate that
  live outside the two given source files (the native engine accessors, the
  `TmpFile` diagnostic channel, the builder and the Delaunay point
  preparation helper); they follow the specification text.
-/

namespace QhullRs

/-! ## Error kinds (`src/error.rs`, `define_error_kinds!`)

The `define_error_kinds!` macro is invoked with an empty list of named
variants, so the generated enum has only the `Other(i32)` catch-all
variant.  `from_code` panics on code 0 — zero is not an error code — and
the panic is modelled as `none`. -/

inductive QhErrorKind where
  | Other (code : Int)
deriving DecidableEq, Repr

/-- The set of named ("known") error codes produced by the
`define_error_kinds!` invocation.  The invocation body is empty
(`// TODO ...`), so the set is empty. -/
def knownErrorCodes : List Int := []

/-- `QhErrorKind::from_code`: code 0 panics — modelled as `none` —, a known
code yields its named variant — there are none —, and any other code
yields `Other code`. -/
def QhErrorKind.from_code (code : Int) : Option QhErrorKind :=
  if code = 0 then none
  else some (QhErrorKind.Other code)

/-- `QhErrorKind::error_code`. -/
def QhErrorKind.error_code : QhErrorKind → Int
  | QhErrorKind.Other code => code

/-! ## Graph-view node models

Node identity is the underlying native pointer (`addr`).  A vertex
optionally carries the byte address of its coordinate data
(`point()` in the source, `none` when the vertex has no coordinates). -/

structure FaceNode where
  addr : Nat
  is_sentinel : Bool
  num_vertices : Nat
deriving DecidableEq, Repr

structure RidgeNode where
  addr : Nat
deriving DecidableEq, Repr

structure VertexNode where
  addr : Nat
  is_sentinel : Bool
  point : Option Nat
deriving DecidableEq, Repr

/-! ## Engine state (`sys::qhT`)

Only the fields the wrapped code reads are modelled.  The facet and vertex
lists are given in forward-traversal order (head first); `first_point` is
the byte address of the first input coordinate, `num_points` the number of
input points, as reported by the corresponding engine accessors. -/

structure QhT where
  facet_list : List FaceNode
  vertex_list : List VertexNode
  num_facets_ctr : Nat
  num_vertices_ctr : Nat
  first_point : Nat
  num_points : Nat
  hull_dim : Nat
  input_dim : Nat
  ferr : Nat
  tracefacet : Option FaceNode
  traceridge : Option RidgeNode
  tracevertex : Option VertexNode
deriving DecidableEq, Repr

/-- Modelled from the spec: engine accessor `qh_get_facet_list` (head of the
facet list; iterating `next()` from it yields `facet_list` in order). -/
def qh_get_facet_list (qh : QhT) : List FaceNode := qh.facet_list

/-- Modelled from the spec: engine accessor `qh_get_vertex_list`. -/
def qh_get_vertex_list (qh : QhT) : List VertexNode := qh.vertex_list

/-- Modelled from the spec: engine accessor `qh_get_num_facets` reads the
engine's facet counter field. -/
def qh_get_num_facets (qh : QhT) : Nat := qh.num_facets_ctr

/-- Modelled from the spec: engine accessor `qh_get_num_vertices` reads the
engine's vertex counter field. -/
def qh_get_num_vertices (qh : QhT) : Nat := qh.num_vertices_ctr

/-- Modelled from the spec: engine accessor `qh_get_first_point` (address of
the first input coordinate). -/
def qh_get_first_point (qh : QhT) : Nat := qh.first_point

/-- Modelled from the spec: engine accessor `qh_get_num_points`. -/
def qh_get_num_points (qh : QhT) : Nat := qh.num_points

/-! ## The facade (`Qh` in `src/lib.rs`) -/

structure Qh where
  qh : QhT
  dim : Nat
deriving DecidableEq, Repr

/-- `Qh::all_faces`: iterate from `qh_get_facet_list` following `next()`;
yields every node of the facet list, the sentinel included. -/
def all_faces (qh : Qh) : List FaceNode := qh_get_facet_list qh.qh

/-- `Qh::faces`: `self.all_faces().filter(|f| !f.is_sentinel())`. -/
def faces (qh : Qh) : List FaceNode :=
  (all_faces qh).filter (fun f => !f.is_sentinel)

/-- `Qh::all_vertices`. -/
def all_vertices (qh : Qh) : List VertexNode := qh_get_vertex_list qh.qh

/-- `Qh::vertices`: `self.all_vertices().filter(|v| !v.is_sentinel())`. -/
def vertices (qh : Qh) : List VertexNode :=
  (all_vertices qh).filter (fun v => !v.is_sentinel)

/-- `Qh::num_faces`: reads `qh_get_num_facets`. -/
def num_faces (qh : Qh) : Nat := qh_get_num_facets qh.qh

/-- `Qh::num_vertices`: reads `qh_get_num_vertices`. -/
def num_vertices (qh : Qh) : Nat := qh_get_num_vertices qh.qh

/-- Modelled from the spec: `Face::simplicial` (defined in `types.rs`, not
among the given source files) reports whether the face's vertex count
equals the ambient dimensionality carried by the view (`self.dim` of the
facade). -/
def simplicial (qh : Qh) (f : FaceNode) : Bool :=
  f.num_vertices == qh.dim

/-- `Qh::simplices`: `self.faces().filter(|f| f.simplicial())`. -/
def simplices (qh : Qh) : List FaceNode :=
  (faces qh).filter (simplicial qh)

/-! ## `Qh::vertex_index`

The source computes
`end_ptr = first_ptr.add(num_points * point_size)` on a `*const f64`;
pointer `add` advances in units of `size_of::<f64>()`, so the byte address
is `first_point + num_points * point_size * 8`.  The `assert_eq!` on the
offset is modelled as the `fatal` outcome; `debug_assert!`s are compiled
out in release builds and are not part of the embedding. -/

def size_of_f64 : Nat := 8

inductive VertexIndexResult where
  | fatal
  | absent
  | found (i : Nat)
deriving DecidableEq, Repr

/-- `Qh::vertex_index`. -/
def vertex_index (qh : Qh) (v : VertexNode) : VertexIndexResult :=
  let point_size := size_of_f64 * qh.dim
  let first_ptr := qh_get_first_point qh.qh
  let end_ptr := first_ptr + qh_get_num_points qh.qh * point_size * size_of_f64
  if v.is_sentinel then VertexIndexResult.absent
  else
    match v.point with
    | none => VertexIndexResult.absent
    | some current_ptr =>
      if current_ptr < first_ptr ∨ end_ptr ≤ current_ptr then
        VertexIndexResult.absent
      else
        let diff := current_ptr - first_ptr
        if diff % point_size = 0 then VertexIndexResult.found (diff / point_size)
        else VertexIndexResult.fatal

/-! ## The structured error (`QhError` in `src/error.rs`) -/

structure QhError where
  kind : QhErrorKind
  error_message : Option String
  face : Option FaceNode
  ridge : Option RidgeNode
  vertex : Option VertexNode
deriving DecidableEq, Repr

/-- One `eprintln!` notice emitted by `into_static` per discarded snapshot. -/
inductive DiscardNotice where
  | face
  | ridge
  | vertex
deriving DecidableEq, Repr

/-- The notice(s) emitted for one optional snapshot: one if present, none
otherwise. -/
def noticesFor {α : Type} (n : DiscardNotice) : Option α → List DiscardNotice
  | some _ => [n]
  | none => []

/-- `QhError::into_static`: returns the owned error together with the list
of diagnostic notices emitted (in source order: face, ridge, vertex). -/
def QhError.into_static (e : QhError) : QhError × List DiscardNotice :=
  (⟨e.kind, e.error_message, none, none, none⟩,
    noticesFor DiscardNotice.face e.face ++
      noticesFor DiscardNotice.ridge e.ridge ++
        noticesFor DiscardNotice.vertex e.vertex)

/-! ## The diagnostic capture channel (`TmpFile` in `tmp_file.rs`) -/

/-- Modelled from the spec: the Diagnostic Capture Channel handle
(`TmpFile`, defined in `tmp_file.rs`, not among the given source files).
It carries a platform handle and the text written to it since creation;
`TmpFile::new` creates an empty channel. -/
structure TmpFile where
  handle : Nat
  contents : String
deriving DecidableEq, Repr

/-- Modelled from the spec: `TmpFile::file_handle`. -/
def TmpFile.file_handle (f : TmpFile) : Nat := f.handle

/-- Modelled from the spec: `TmpFile::read_as_string_and_close` drains all
text written since creation (the success case; its failure is an unwrap,
i.e. fatal, and is not exercised by any claim). -/
def TmpFile.read_as_string_and_close (f : TmpFile) : String := f.contents

/-! ## The error trap bridge (`QhError::try_on_raw`)

The abort branch of `try_on_raw` is embedded with an explicit event trace
recording the order of its observable steps:
`classify` (the `QhErrorKind::from_code` call), `detachReplace` (the
`err_file.replace(TmpFile::new()...)` call, which detaches the old channel
and installs the fresh one), `installFerr` (the `qh.ferr = ...` assignment)
and `drain` (the `read_as_string_and_close` call on the detached channel).
`fresh_handle` models the outcome of `TmpFile::new()` (`none` = allocation
failure, which the source turns into a panic via `expect`, modelled as the
`fatal` outcome).  `fr` is the value the wrapped closure produced. -/

inductive Ev where
  | classify
  | detachReplace
  | installFerr
  | drain
deriving DecidableEq, Repr

inductive TrapOutcome (R : Type) where
  | ok (r : R)
  | err (e : QhError)
  | fatal
deriving DecidableEq, Repr

/-- `QhError::try_on_raw`: result, final engine state, final channel slot,
and the event trace of the abort branch. -/
def try_on_raw {R : Type} (qh : QhT) (err_file : Option TmpFile) (fr : R)
    (err_code : Int) (fresh_handle : Option Nat) :
    TrapOutcome R × QhT × Option TmpFile × List Ev :=
  if err_code = 0 then
    (TrapOutcome.ok fr, qh, err_file, [])
  else
    match QhErrorKind.from_code err_code with
    | none =>
      -- unreachable: `from_code` only panics on 0, excluded in this branch
      (TrapOutcome.fatal, qh, err_file, [Ev.classify])
    | some kind =>
      match fresh_handle with
      | none =>
        -- `TmpFile::new().expect(...)` panics before the old channel is
        -- detached
        (TrapOutcome.fatal, qh, err_file, [Ev.classify])
      | some h =>
        let replacement : TmpFile := ⟨h, ""⟩
        let file := err_file
        let err_file2 := some replacement
        let qh2 := { qh with ferr := replacement.file_handle }
        let msg := file.map (fun f => f.read_as_string_and_close)
        (TrapOutcome.err
            ⟨kind, msg, qh.tracefacet, qh.traceridge, qh.tracevertex⟩,
          qh2, err_file2,
          [Ev.classify, Ev.detachReplace, Ev.installFerr, Ev.drain])

/-! ## Builder and the Delaunay convenience path -/

/-- Modelled from the spec: the builder (`QhBuilder` in `builder.rs`, not
among the given source files) accumulates independent configuration
toggles; only the five toggles the Delaunay path touches are modelled. -/
structure QhBuilder where
  delaunay_opt : Bool := false
  upper_delaunay_opt : Bool := false
  scale_last_opt : Bool := false
  triangulate_opt : Bool := false
  keep_coplanar_opt : Bool := false
deriving DecidableEq, Repr

def QhBuilder.default : QhBuilder := {}

def QhBuilder.delaunay (b : QhBuilder) (v : Bool) : QhBuilder :=
  { b with delaunay_opt := v }

def QhBuilder.upper_delaunay (b : QhBuilder) (v : Bool) : QhBuilder :=
  { b with upper_delaunay_opt := v }

def QhBuilder.scale_last (b : QhBuilder) (v : Bool) : QhBuilder :=
  { b with scale_last_opt := v }

def QhBuilder.triangulate (b : QhBuilder) (v : Bool) : QhBuilder :=
  { b with triangulate_opt := v }

def QhBuilder.keep_coplanar (b : QhBuilder) (v : Bool) : QhBuilder :=
  { b with keep_coplanar_opt := v }

/-- The construction request a `build_managed` call hands to the engine:
dimensionality, flattened coordinates, and the accumulated options. -/
structure BuildRequest where
  dim : Nat
  coords : List ℚ
  options : QhBuilder
deriving DecidableEq

/-- Modelled from the spec: `QhBuilder::build_managed(dim, coords)` consumes
a pre-flattened coordinate sequence of known dimensionality and performs
one-shot construction; the embedding records what reaches the engine. -/
def QhBuilder.build_managed (b : QhBuilder) (dim : Nat) (coords : List ℚ) :
    BuildRequest :=
  ⟨dim, coords, b⟩

structure CollectedCoords where
  coords : List ℚ
  count : Nat
  dim : Nat
deriving DecidableEq

/-- Sum of the squared coordinates of one point. -/
def sumSq (p : List ℚ) : ℚ := (p.map (fun x => x * x)).sum

/-- Modelled from the spec: `prepare_delaunay_points` (in `helpers.rs`, not
among the given source files) applies the standard paraboloid lifting:
each D-dimensional point gets the sum of its squared coordinates appended,
giving a flattened point set of dimension D+1. -/
def prepare_delaunay_points (points : List (List ℚ)) : CollectedCoords :=
  { coords := (points.map (fun p => p ++ [sumSq p])).flatten
    count := points.length
    dim := (points.headD []).length + 1 }

/-- `Qh::new_delaunay`: lift the points, then build through the general
builder with the five options forced on. -/
def new_delaunay (points : List (List ℚ)) : BuildRequest :=
  let c := prepare_delaunay_points points
  ((((QhBuilder.default.delaunay true).upper_delaunay
          true).scale_last true).triangulate true).keep_coplanar true
    |>.build_managed c.dim c.coords

/-! ## Spec-side definitions (for the refinement claims) -/

/-- Spec-side: the visible faces are the elements of the all-faces
iteration whose `is_sentinel` is false, in the same order. -/
def visible_faces_spec (qh : Qh) : List FaceNode :=
  (all_faces qh).filter (fun f => f.is_sentinel = false)

/-- Spec-side: the visible vertices, analogously. -/
def visible_vertices_spec (qh : Qh) : List VertexNode :=
  (all_vertices qh).filter (fun v => v.is_sentinel = false)

/-- Modelled from the spec: the engine counters report the number of
non-sentinel nodes currently reachable in the respective lists (spec §4.5,
a required consistency property of the engine boundary). -/
def WfCounts (qh : Qh) : Prop :=
  qh.qh.num_facets_ctr =
      ((all_faces qh).filter (fun f => f.is_sentinel = false)).length ∧
    qh.qh.num_vertices_ctr =
      ((all_vertices qh).filter (fun v => v.is_sentinel = false)).length

instance (qh : Qh) : Decidable (WfCounts qh) := by
  unfold WfCounts; infer_instance

/-! ## Concrete sample values used by the closed theorems -/

/-- A small built facade: two real faces plus the sentinel face, one real
vertex plus the sentinel vertex, two input points of dimension 2 stored at
byte addresses 0 and 16. -/
def sampleQhT : QhT :=
  { facet_list := [⟨1, false, 2⟩, ⟨2, false, 2⟩, ⟨3, true, 0⟩]
    vertex_list := [⟨4, false, some 0⟩, ⟨5, true, none⟩]
    num_facets_ctr := 2
    num_vertices_ctr := 1
    first_point := 0
    num_points := 2
    hull_dim := 2
    input_dim := 2
    ferr := 0
    tracefacet := none
    traceridge := none
    tracevertex := none }

def sampleQh : Qh := ⟨sampleQhT, 2⟩

/-- A facade with one input point of dimension 1 (true buffer range: bytes
0 to 7). -/
def qhBug : Qh :=
  ⟨{ sampleQhT with
      first_point := 0
      num_points := 1
      hull_dim := 1
      input_dim := 1 }, 1⟩

/-- A vertex whose coordinate pointer (byte 8) is past the end of `qhBug`'s
true input buffer. -/
def vBug : VertexNode := ⟨10, false, some 8⟩

/-- A non-sentinel vertex whose pointer (byte 8) is inside `sampleQh`'s
buffer but misaligned: 8 is not a multiple of the 16-byte point size. -/
def vMis : VertexNode := ⟨11, false, some 8⟩

/-- A non-sentinel vertex whose pointer is exactly the storage address of
`sampleQh`'s point index 1. -/
def vAligned : VertexNode := ⟨12, false, some 16⟩

/-- A sentinel vertex carrying a misaligned pointer inside `sampleQh`'s
buffer. -/
def vSentinelIn : VertexNode := ⟨13, true, some 8⟩

def sampleChannel : TmpFile := ⟨3, "diag"⟩

/-! ## Helper lemmas -/

theorem face_pred_eq :
    (fun f : FaceNode => !f.is_sentinel) =
      (fun f : FaceNode => decide (f.is_sentinel = false)) := by
  funext f
  rcases f with ⟨a, s, n⟩
  cases s <;> rfl

theorem vertex_pred_eq :
    (fun v : VertexNode => !v.is_sentinel) =
      (fun v : VertexNode => decide (v.is_sentinel = false)) := by
  funext v
  rcases v with ⟨a, s, p⟩
  cases s <;> rfl

/-- For a non-sentinel vertex with coordinate address inside the true
input-buffer range, `vertex_index` reaches the alignment test: it returns
the point index when the byte offset is a multiple of the point size and
is fatal otherwise.  (The range check of the code uses an eightfold larger
bound, so the true range always passes it.) -/
theorem vertex_index_inside (qh : Qh) (v : VertexNode) (a : Nat)
    (hs : v.is_sentinel = false) (hp : v.point = some a)
    (h1 : qh.qh.first_point ≤ a)
    (h2 : a < qh.qh.first_point + qh.qh.num_points * (size_of_f64 * qh.dim)) :
    vertex_index qh v =
      if (a - qh.qh.first_point) % (size_of_f64 * qh.dim) = 0 then
        VertexIndexResult.found ((a - qh.qh.first_point) / (size_of_f64 * qh.dim))
      else VertexIndexResult.fatal := by
  have hmul : qh.qh.num_points * (size_of_f64 * qh.dim) ≤
      qh.qh.num_points * (size_of_f64 * qh.dim) * size_of_f64 :=
    Nat.le_mul_of_pos_right _ (by norm_num [size_of_f64])
  have hin : ¬(a < qh.qh.first_point ∨
      qh.qh.first_point + qh.qh.num_points * (size_of_f64 * qh.dim) * size_of_f64
        ≤ a) := by
    push_neg
    exact ⟨h1, by omega⟩
  rcases v with ⟨va, vs, vp⟩
  obtain rfl : vs = false := hs
  obtain rfl : vp = some a := hp
  simp [vertex_index, qh_get_first_point, qh_get_num_points, hin]

/-! ## Claim C1 -/

/-- C1 counterexample: code 0 is not in the known set, yet `from_code 0`
fails (the source panics there), refuting "the mapping never itself fails
for any input code". -/
theorem from_code_fails_at_zero :
    (0 : Int) ∉ knownErrorCodes ∧ QhErrorKind.from_code 0 = none := by
  decide

/-- C1 (amended): every known code maps to its named variant with matching
`error_code`, and every NONZERO code outside the known set maps to the
unrecognized-code variant carrying it, whose `error_code` returns it; the
mapping fails only on code 0, which is not an error code. -/
theorem from_code_classification (c : Int) (hc : c ≠ 0) :
    (∀ k ∈ knownErrorCodes, ∃ e, QhErrorKind.from_code k = some e ∧
        QhErrorKind.error_code e = k) ∧
      (c ∉ knownErrorCodes →
        QhErrorKind.from_code c = some (QhErrorKind.Other c) ∧
          QhErrorKind.error_code (QhErrorKind.Other c) = c) := by
  constructor
  · intro k hk
    simp [knownErrorCodes] at hk
  · intro _
    exact ⟨by simp [QhErrorKind.from_code, hc], rfl⟩

/-- C1 witness at code 42. -/
theorem from_code_classification_witness :
    (42 : Int) ≠ 0 ∧
      ((∀ k ∈ knownErrorCodes, ∃ e, QhErrorKind.from_code k = some e ∧
          QhErrorKind.error_code e = k) ∧
        ((42 : Int) ∉ knownErrorCodes →
          QhErrorKind.from_code 42 = some (QhErrorKind.Other 42) ∧
            QhErrorKind.error_code (QhErrorKind.Other 42) = 42)) :=
  ⟨by decide, from_code_classification 42 (by decide)⟩

/-! ## Claim C9 -/

/-- C9: converting an error to the owned form preserves `kind` and
`error_message`, sets the face, ridge and vertex snapshots to `none`,
modifies no other field, and emits exactly one diagnostic notice per
snapshot that was present. -/
theorem into_static_frame (e : QhError) :
    (QhError.into_static e).1 =
        { e with face := none, ridge := none, vertex := none } ∧
      (QhError.into_static e).2.length =
        ((if e.face.isSome then 1 else 0) +
          (if e.ridge.isSome then 1 else 0) +
          (if e.vertex.isSome then 1 else 0)) := by
  rcases e with ⟨k, m, f, r, v⟩
  refine ⟨rfl, ?_⟩
  cases f <;> cases r <;> cases v <;> rfl

/-! ## Claim C6 -/

/-- C6: the visible-only iterations are exactly the all-node iterations
filtered on the sentinel predicate, in the same order: `faces()` is
`all_faces()` restricted to nodes with `is_sentinel` false, and
`vertices()` likewise. -/
theorem visible_iteration_is_filter (qh : Qh) :
    faces qh = visible_faces_spec qh ∧
      vertices qh = visible_vertices_spec qh := by
  constructor
  · simp only [faces, visible_faces_spec, face_pred_eq]
  · simp only [vertices, visible_vertices_spec, vertex_pred_eq]

/-! ## Claim C10 -/

/-- C10: `simplices()` is `faces()` filtered on the simplicial predicate,
i.e. exactly the non-sentinel faces whose vertex count equals the ambient
dimensionality, in the order of `faces()`. -/
theorem simplices_are_filtered_simplicial_faces (qh : Qh) :
    simplices qh = (faces qh).filter (simplicial qh) ∧
      simplices qh =
        (all_faces qh).filter
          (fun f => decide (f.is_sentinel = false ∧ f.num_vertices = qh.dim)) := by
  refine ⟨rfl, ?_⟩
  show ((all_faces qh).filter (fun f => !f.is_sentinel)).filter (simplicial qh) = _
  rw [List.filter_filter]
  apply List.filter_congr
  intro f _
  rcases f with ⟨a, s, n⟩
  cases s
  · by_cases hn : n = qh.dim <;> simp [simplicial, hn]
  · simp [simplicial]

/-! ## Claim C5 -/

/-- C5: under the engine's counter consistency property, the reported
counts equal the lengths of the filtered iterations:
`num_faces() = faces().count()` and `num_vertices() = vertices().count()`. -/
theorem counts_match_filtered_iteration (qh : Qh) (hw : WfCounts qh) :
    num_faces qh = (faces qh).length ∧
      num_vertices qh = (vertices qh).length := by
  obtain ⟨h1, h2⟩ := hw
  refine ⟨?_, ?_⟩
  · simpa only [num_faces, qh_get_num_facets, faces, face_pred_eq] using h1
  · simpa only [num_vertices, qh_get_num_vertices, vertices, vertex_pred_eq]
      using h2

/-- C5 witness at `sampleQh`. -/
theorem counts_match_filtered_iteration_witness :
    WfCounts sampleQh ∧
      (num_faces sampleQh = (faces sampleQh).length ∧
        num_vertices sampleQh = (vertices sampleQh).length) :=
  ⟨by decide, counts_match_filtered_iteration sampleQh (by decide)⟩

/-! ## Claim C2 -/

/-- C2: the code computes the end of the input-buffer range with a pointer
add in `f64`-element units applied to a byte count, overshooting the true
range eightfold.  At `qhBug` — one stored point of dimension 1, occupying
bytes 0 to 7 — the vertex `vBug` points at byte 8, outside the range
covering the stored points, yet `vertex_index` returns index 1 instead of
`absent`; 1 is not below `num_points`, contradicting the code's own debug
assertion and its doc comment. -/
theorem vertex_index_out_of_range_bug :
    vBug.is_sentinel = false ∧
      vBug.point = some 8 ∧
      qhBug.qh.first_point + qhBug.qh.num_points * (size_of_f64 * qhBug.dim)
        ≤ 8 ∧
      vertex_index qhBug vBug = VertexIndexResult.found 1 ∧
      ¬ 1 < qhBug.qh.num_points := by
  decide

/-! ## Claim C3 -/

/-- C3 counterexample: `vMis` is non-sentinel and its coordinate pointer
lies inside `sampleQh`'s input buffer (byte 8 of bytes 0 to 31), but at an
offset that is not a multiple of the 16-byte point size: `vertex_index`
hits the fatal assertion instead of producing an index below
`num_points`. -/
theorem vertex_index_misaligned_inside_cex :
    vMis.is_sentinel = false ∧
      vMis.point = some 8 ∧
      sampleQh.qh.first_point ≤ 8 ∧
      8 < sampleQh.qh.first_point +
        sampleQh.qh.num_points * (size_of_f64 * sampleQh.dim) ∧
      vertex_index sampleQh vMis = VertexIndexResult.fatal := by
  decide

/-- C3 (amended): for a non-sentinel vertex whose coordinate pointer lies
inside the input buffer at a point-aligned offset, `vertex_index` returns
an index below `num_points`; and when the pointer is exactly the storage
address of point `i`, it returns `i`.  Misaligned interior pointers hit
the fatal assertion instead (see the counterexample). -/
theorem vertex_index_roundtrip (qh : Qh) (v : VertexNode) (a : Nat)
    (hs : v.is_sentinel = false) (hp : v.point = some a)
    (h1 : qh.qh.first_point ≤ a)
    (h2 : a < qh.qh.first_point + qh.qh.num_points * (size_of_f64 * qh.dim)) :
    ((a - qh.qh.first_point) % (size_of_f64 * qh.dim) = 0 →
      vertex_index qh v =
          VertexIndexResult.found
            ((a - qh.qh.first_point) / (size_of_f64 * qh.dim)) ∧
        (a - qh.qh.first_point) / (size_of_f64 * qh.dim) < qh.qh.num_points) ∧
      (∀ i, a = qh.qh.first_point + i * (size_of_f64 * qh.dim) →
        vertex_index qh v = VertexIndexResult.found i) := by
  have hkey := vertex_index_inside qh v a hs hp h1 h2
  have hNps : 0 < qh.qh.num_points * (size_of_f64 * qh.dim) := by omega
  have hps : 0 < size_of_f64 * qh.dim := by
    rcases Nat.eq_zero_or_pos (size_of_f64 * qh.dim) with h | h
    · rw [h, Nat.mul_zero] at hNps
      exact absurd hNps (by omega)
    · exact h
  constructor
  · intro hmod
    refine ⟨by rw [hkey, if_pos hmod], ?_⟩
    have hlt : a - qh.qh.first_point <
        qh.qh.num_points * (size_of_f64 * qh.dim) := by omega
    exact (Nat.div_lt_iff_lt_mul hps).mpr hlt
  · intro i hi
    subst hi
    have hdiff : qh.qh.first_point + i * (size_of_f64 * qh.dim) -
        qh.qh.first_point = i * (size_of_f64 * qh.dim) := by omega
    rw [hkey, hdiff, Nat.mul_mod_left, if_pos rfl, Nat.mul_div_cancel _ hps]

/-- C3 witness: at `sampleQh`, the vertex `vAligned` points exactly at
stored point 1 (byte 16) and `vertex_index` recovers index 1. -/
theorem vertex_index_roundtrip_witness :
    (vAligned.is_sentinel = false ∧ vAligned.point = some 16 ∧
        sampleQh.qh.first_point ≤ 16 ∧
        16 < sampleQh.qh.first_point +
          sampleQh.qh.num_points * (size_of_f64 * sampleQh.dim) ∧
        16 = sampleQh.qh.first_point + 1 * (size_of_f64 * sampleQh.dim)) ∧
      vertex_index sampleQh vAligned = VertexIndexResult.found 1 :=
  ⟨⟨by decide, by decide, by decide, by decide, by decide⟩,
    (vertex_index_roundtrip sampleQh vAligned 16 (by decide) (by decide)
        (by decide) (by decide)).2 1 (by decide)⟩

/-! ## Claim C7 -/

/-- C7 counterexample: the claim quantifies over every vertex view; for the
SENTINEL vertex `vSentinelIn`, whose coordinate pointer lies inside the
recorded range at a misaligned offset, `vertex_index` returns `absent`
(the sentinel check precedes the range and alignment checks), not the
claimed fatal failure. -/
theorem vertex_index_sentinel_inside_cex :
    vSentinelIn.point = some 8 ∧
      sampleQh.qh.first_point ≤ 8 ∧
      8 < sampleQh.qh.first_point +
        sampleQh.qh.num_points * (size_of_f64 * sampleQh.dim) ∧
      ¬ (8 - sampleQh.qh.first_point) % (size_of_f64 * sampleQh.dim) = 0 ∧
      vertex_index sampleQh vSentinelIn = VertexIndexResult.absent ∧
      VertexIndexResult.absent ≠ VertexIndexResult.fatal := by
  decide

/-- C7 (amended): for every non-sentinel vertex with coordinate data whose
pointer lies inside the input-buffer range, a byte offset that is not an
exact multiple of one point's storage size makes `vertex_index` fail
fatally; and when the offset is such a multiple the fatal branch is
unreachable and `vertex_index` returns `offset / point_size`. -/
theorem vertex_index_alignment_fatal (qh : Qh) (v : VertexNode) (a : Nat)
    (hs : v.is_sentinel = false) (hp : v.point = some a)
    (h1 : qh.qh.first_point ≤ a)
    (h2 : a < qh.qh.first_point + qh.qh.num_points * (size_of_f64 * qh.dim)) :
    ((a - qh.qh.first_point) % (size_of_f64 * qh.dim) ≠ 0 →
      vertex_index qh v = VertexIndexResult.fatal) ∧
      ((a - qh.qh.first_point) % (size_of_f64 * qh.dim) = 0 →
        vertex_index qh v =
          VertexIndexResult.found
            ((a - qh.qh.first_point) / (size_of_f64 * qh.dim))) := by
  have hkey := vertex_index_inside qh v a hs hp h1 h2
  exact ⟨fun hmod => by rw [hkey, if_neg hmod],
    fun hmod => by rw [hkey, if_pos hmod]⟩

/-- C7 witness: at `sampleQh`, the misaligned interior vertex `vMis` hits
the fatal branch. -/
theorem vertex_index_alignment_fatal_witness :
    (vMis.is_sentinel = false ∧ vMis.point = some 8 ∧
        sampleQh.qh.first_point ≤ 8 ∧
        8 < sampleQh.qh.first_point +
          sampleQh.qh.num_points * (size_of_f64 * sampleQh.dim) ∧
        (8 - sampleQh.qh.first_point) % (size_of_f64 * sampleQh.dim) ≠ 0) ∧
      vertex_index sampleQh vMis = VertexIndexResult.fatal :=
  ⟨⟨by decide, by decide, by decide, by decide, by decide⟩,
    (vertex_index_alignment_fatal sampleQh vMis 8 (by decide) (by decide)
        (by decide) (by decide)).1 (by decide)⟩

/-! ## Claim C4 -/

/-- C4 counterexample: on a concrete abort the recorded event trace is
classify, detach-and-replace, install-destination, drain; no position of
the drain precedes a position of the classification, refuting "drains the
channel to obtain the message text before classifying the abort code". -/
theorem try_on_raw_classify_before_drain_cex :
    (try_on_raw sampleQhT (some sampleChannel) (0 : Nat) 1 (some 7)).2.2.2 =
        [Ev.classify, Ev.detachReplace, Ev.installFerr, Ev.drain] ∧
      ¬ ∃ i j : Fin 4, i < j ∧
          [Ev.classify, Ev.detachReplace, Ev.installFerr, Ev.drain].get i =
            Ev.drain ∧
          [Ev.classify, Ev.detachReplace, Ev.installFerr, Ev.drain].get j =
            Ev.classify := by
  exact ⟨rfl, by decide⟩

/-- C4 (amended): on abort the bridge classifies the abort code (a pure
total lookup on the nonzero code), then detaches and drains the current
Diagnostic Capture Channel to obtain the message text; it fails fast as a
fatal (non-`Result`) condition if a fresh replacement channel cannot be
allocated, and otherwise installs the fresh empty channel as the engine's
error destination before returning the structured error, so the next
protected call starts with a clean channel. -/
theorem try_on_raw_abort_spec {R : Type} (qh : QhT) (old : Option TmpFile)
    (fr : R) (code : Int) (hc : code ≠ 0) :
    ((try_on_raw qh old fr code none).1 = TrapOutcome.fatal ∧
        (try_on_raw qh old fr code none).2.2.1 = old) ∧
      ∀ h : Nat,
        (try_on_raw qh old fr code (some h)).1 =
            TrapOutcome.err
              ⟨QhErrorKind.Other code,
                old.map (fun f => f.read_as_string_and_close),
                qh.tracefacet, qh.traceridge, qh.tracevertex⟩ ∧
          (try_on_raw qh old fr code (some h)).2.1 = { qh with ferr := h } ∧
          (try_on_raw qh old fr code (some h)).2.2.1 = some ⟨h, ""⟩ ∧
          (try_on_raw qh old fr code (some h)).2.2.2 =
            [Ev.classify, Ev.detachReplace, Ev.installFerr, Ev.drain] := by
  simp [try_on_raw, QhErrorKind.from_code, hc, TmpFile.file_handle]

/-- C4 witness at a concrete abort: code 7, prior channel `sampleChannel`,
fresh handle 9. -/
theorem try_on_raw_abort_spec_witness :
    (7 : Int) ≠ 0 ∧
      (((try_on_raw sampleQhT (some sampleChannel) (0 : Nat) 7 none).1 =
            TrapOutcome.fatal ∧
          (try_on_raw sampleQhT (some sampleChannel) (0 : Nat) 7 none).2.2.1 =
            some sampleChannel) ∧
        ((try_on_raw sampleQhT (some sampleChannel) (0 : Nat) 7 (some 9)).1 =
            TrapOutcome.err
              ⟨QhErrorKind.Other 7,
                (some sampleChannel).map (fun f => f.read_as_string_and_close),
                sampleQhT.tracefacet, sampleQhT.traceridge,
                sampleQhT.tracevertex⟩ ∧
          (try_on_raw sampleQhT (some sampleChannel) (0 : Nat) 7 (some 9)).2.1 =
            { sampleQhT with ferr := 9 } ∧
          (try_on_raw sampleQhT (some sampleChannel) (0 : Nat) 7
              (some 9)).2.2.1 = some ⟨9, ""⟩ ∧
          (try_on_raw sampleQhT (some sampleChannel) (0 : Nat) 7
              (some 9)).2.2.2 =
            [Ev.classify, Ev.detachReplace, Ev.installFerr, Ev.drain])) :=
  ⟨by decide,
    ⟨(try_on_raw_abort_spec sampleQhT (some sampleChannel) 0 7 (by decide)).1,
      (try_on_raw_abort_spec sampleQhT (some sampleChannel) 0 7
          (by decide)).2 9⟩⟩

/-! ## Claim C8 -/

/-- C8: `new_delaunay` lifts N points of dimension D to dimension D+1 by
appending each point's sum of squared coordinates, and builds through the
general builder with the delaunay, upper-delaunay, scale-last, triangulate
and keep-coplanar options all forced on — sugar over the general builder,
not a separate algorithm. -/
theorem new_delaunay_lifts_and_forces_options (points : List (List ℚ))
    (D : Nat) (hne : points ≠ []) (hdim : ∀ p ∈ points, p.length = D) :
    (new_delaunay points).dim = D + 1 ∧
      (new_delaunay points).coords =
        (points.map (fun p => p ++ [sumSq p])).flatten ∧
      (∀ p ∈ points, (p ++ [sumSq p]).length = D + 1) ∧
      (new_delaunay points).options =
        { delaunay_opt := true, upper_delaunay_opt := true,
          scale_last_opt := true, triangulate_opt := true,
          keep_coplanar_opt := true } ∧
      new_delaunay points =
        QhBuilder.build_managed
          (((((QhBuilder.default.delaunay true).upper_delaunay
              true).scale_last true).triangulate true).keep_coplanar true)
          (prepare_delaunay_points points).dim
          (prepare_delaunay_points points).coords := by
  refine ⟨?_, rfl, ?_, rfl, rfl⟩
  · rcases points with _ | ⟨p, ps⟩
    · exact absurd rfl hne
    · show p.length + 1 = D + 1
      rw [hdim p (List.mem_cons_self p ps)]
  · intro p hp
    simp [hdim p hp]

/-- C8 witness on two concrete 2-D points. -/
theorem new_delaunay_witness :
    ([[(1 : ℚ), 2], [3, 4]] ≠ ([] : List (List ℚ))) ∧
      (∀ p ∈ [[(1 : ℚ), 2], [3, 4]], p.length = 2) ∧
      ((new_delaunay [[(1 : ℚ), 2], [3, 4]]).dim = 2 + 1 ∧
        (new_delaunay [[(1 : ℚ), 2], [3, 4]]).coords =
          ([[(1 : ℚ), 2], [3, 4]].map (fun p => p ++ [sumSq p])).flatten ∧
        (∀ p ∈ [[(1 : ℚ), 2], [3, 4]], (p ++ [sumSq p]).length = 2 + 1) ∧
        (new_delaunay [[(1 : ℚ), 2], [3, 4]]).options =
          { delaunay_opt := true, upper_delaunay_opt := true,
            scale_last_opt := true, triangulate_opt := true,
            keep_coplanar_opt := true } ∧
        new_delaunay [[(1 : ℚ), 2], [3, 4]] =
          QhBuilder.build_managed
            (((((QhBuilder.default.delaunay true).upper_delaunay
                true).scale_last true).triangulate true).keep_coplanar true)
            (prepare_delaunay_points [[(1 : ℚ), 2], [3, 4]]).dim
            (prepare_delaunay_points [[(1 : ℚ), 2], [3, 4]]).coords) :=
  ⟨by simp, fun p hp => by simp at hp; rcases hp with rfl | rfl <;> rfl,
    new_delaunay_lifts_and_forces_options [[(1 : ℚ), 2], [3, 4]] 2 (by simp)
      (fun p hp => by simp at hp; rcases hp with rfl | rfl <;> rfl)⟩

end QhullRs
